import Mathlib

/-!
Verification of the native payment flow orchestrator
(`src/payment-flows/native/native.js`) and the button log trigger.

The JavaScript code is single-threaded and built on synchronously-resolving
promises (ZalgoPromise), so we embed it as explicit state passing: a session
state `NS` carries the cleanup registry, the memoized-destroy cache, the
`approved` / `cancelled` / `didFallback` flags and a trace of observable
effects (telemetry, user-handler invocations, opened popups and connections,
executed teardown actions).  Each callback of `initNative` is translated as a
function `NS → NS` (with its promise result where a claim needs it), following
the source's evaluation order.  External collaborators (user handlers, the
popup and connection factories, environment queries) appear as parameters and
trace effects, matching the interfaces the source consumes.
-/

set_option autoImplicit false

namespace Native

/-- Teardown actions that the flow registers into the cleanup registry:
the popup's cancel, the native connection's cancel, the fallback web
checkout's close. -/
inductive Teardown where
  | cancelPopup (uid : Nat)
  | cancelConnection (uid : Nat)
  | closeCheckout (uid : Nat)
deriving DecidableEq, Repr

/-- Observable effects of the flow, in program order. -/
inductive Effect where
  | telemetry (name : String)
  | info (name : String)
  | onApproveHandler
  | onCancelHandler
  | onErrorHandler (msg : String)
  | onShippingChangeHandler
  | popupOpened (uid : Nat)
  | connectionOpened (uid : Nat)
  | qrRendered
  | checkoutInit (isNativeFallback : Bool) (hasWin : Bool)
  | checkoutStarted
  | storageWrite (key : String) (time : Nat)
  | teardownRun (t : Teardown)
deriving DecidableEq, Repr

/-- State of one native flow session created by `initNative`. -/
structure NS where
  /-- pending teardown actions of the cleanup registry (`clean`) -/
  tasks : List Teardown
  /-- the registry already ran (`clean.all()` happened) -/
  cleaned : Bool
  /-- cache of `destroy = memoize(() => clean.all())`: `some v` holds the
  first call's outcome (the teardown list that call awaited) -/
  destroyMemo : Option (List Teardown)
  approved : Bool
  cancelled : Bool
  didFallback : Bool
  /-- effects performed so far, in order -/
  trace : List Effect
deriving DecidableEq, Repr

/-- The state right after `initNative` set up a fresh session. -/
def freshNS : NS :=
  { tasks := [], cleaned := false, destroyMemo := none,
    approved := false, cancelled := false, didFallback := false, trace := [] }

/-- Append one effect to the trace. -/
def emit (e : Effect) (s : NS) : NS :=
  { s with trace := s.trace ++ [e] }

/-- `getLogger().info(name).track(...).flush()`: a telemetry record. -/
def logTrack (name : String) (s : NS) : NS :=
  emit (Effect.telemetry name) s

/-- Modelled from the spec: `clean.register(action)` of the belter
`cleanup()` registry (a dependency whose source is not part of this
repository) appends a teardown action (spec 4.1). -/
def register (t : Teardown) (s : NS) : NS :=
  { s with tasks := s.tasks ++ [t] }

/-- Modelled from the spec: `clean.all()` invokes every registered action in
order and resolves when all complete (spec 4.1); afterwards the registry is
empty and marked cleaned. -/
def allTasks (s : NS) : NS :=
  { s with trace := s.trace ++ s.tasks.map Effect.teardownRun,
           tasks := [], cleaned := true }

/-- Modelled from the spec: `destroy = memoize(() => clean.all())` — the
first call runs `clean.all()` and caches its outcome; repeated calls return
the first call's outcome without re-running any action (spec 3, 4.1).
Returns the new state and the teardown list the returned future awaits. -/
def destroyCall (s : NS) : NS × List Teardown :=
  match s.destroyMemo with
  | some v => (s, v)
  | none => ({ allTasks s with destroyMemo := some s.tasks }, s.tasks)

/-- `destroy()`, keeping only the state. -/
def destroy (s : NS) : NS :=
  (destroyCall s).1

/-- `fallbackToWebCheckout(fallbackWin?)`: marks the session as fallen back,
creates a web checkout instance over the same payment context with
`isClick: false, isNativeFallback: true` and the given window, registers its
`close` into the registry, and starts it.  `hasWin` records whether a
fallback window handle was passed; `checkoutUID` identifies the created
checkout instance. -/
def fallbackToWebCheckout (hasWin : Bool) (checkoutUID : Nat) (s : NS) : NS :=
  let s := { s with didFallback := true }
  let s := emit (Effect.checkoutInit true hasWin) s
  let s := register (Teardown.closeCheckout checkoutUID) s
  emit Effect.checkoutStarted s

/-- `onApproveCallback`: sets `approved`, emits approve telemetry, runs the
user `onApprove` handler (whose rejection, `handlerErr = some err`, is caught:
error telemetry is emitted and `onError err` invoked) together with
`destroy()`, then resolves with the button session id. -/
def onApproveCallback (buttonSessionID : String) (handlerErr : Option String)
    (s : NS) : NS × Except String String :=
  let s := { s with approved := true }
  let s := logTrack "native_message_onapprove" s
  let s := emit Effect.onApproveHandler s
  let s := match handlerErr with
    | none => s
    | some err =>
        emit (Effect.onErrorHandler err) (logTrack "native_message_onapprove_error" s)
  (destroy s, Except.ok buttonSessionID)

/-- `onCancelCallback`: sets `cancelled`, emits cancel telemetry, runs the
user `onCancel` handler together with `destroy()`, resolves with the button
session id. -/
def onCancelCallback (buttonSessionID : String) (s : NS) : NS × Except String String :=
  let s := { s with cancelled := true }
  let s := logTrack "native_message_oncancel" s
  let s := emit Effect.onCancelHandler s
  (destroy s, Except.ok buttonSessionID)

/-- `onErrorCallback`: emits error telemetry, runs the user `onError` handler
with the message together with `destroy()`, resolves with the button session
id. -/
def onErrorCallback (buttonSessionID : String) (msg : String) (s : NS) :
    NS × Except String String :=
  let s := logTrack "native_message_onerror" s
  let s := emit (Effect.onErrorHandler msg) s
  (destroy s, Except.ok buttonSessionID)

/-- One action the user `onShippingChange` handler may invoke. -/
inductive ShippingAction where
  | resolveA
  | rejectA
deriving DecidableEq, Repr

/-- `onShippingChangeCallback`: emits telemetry; with no user handler it
resolves `{ resolved: true }`; with a handler it starts `resolved := true`,
lets the handler invoke its `resolve` / `reject` actions (`acts`, in order:
`resolve` sets `resolved := true`, `reject` sets it to `false`) and reports
the final value. -/
def onShippingChangeCallback (handlerActs : Option (List ShippingAction))
    (s : NS) : NS × Bool :=
  let s := logTrack "native_message_onshippingchange" s
  match handlerActs with
  | none => (s, true)
  | some acts =>
      let s := emit Effect.onShippingChangeHandler s
      (s, acts.foldl (fun _r a => match a with
        | ShippingAction.resolveA => true
        | ShippingAction.rejectA => false) true)

/-- `onFallbackCallback`: emits fallback telemetry, falls back to web
checkout (no window handle), resolves with the button session id. -/
def onFallbackCallback (buttonSessionID : String) (checkoutUID : Nat) (s : NS) :
    NS × Except String String :=
  let s := logTrack "native_message_onfallback" s
  (fallbackToWebCheckout false checkoutUID s, Except.ok buttonSessionID)

/-- The check `onCloseCallback` runs once its 1000ms delay has elapsed: if
none of `approved` / `cancelled` / `didFallback` is set and the environment
is not Android Chrome, it invokes the user `onCancel` handler together with
`destroy()`; otherwise it does nothing. -/
def onCloseAfterDelay (androidChrome : Bool) (s : NS) : NS :=
  if !s.approved && !s.cancelled && !s.didFallback && !androidChrome then
    destroy (emit Effect.onCancelHandler s)
  else s

/-- An inbound message that can fire while `onCloseCallback`'s 1000ms grace
delay is pending. -/
inductive WindowEvent where
  | approveEv (handlerErr : Option String)
  | cancelEv
  | errorEv (msg : String)
  | fallbackEv (checkoutUID : Nat)
deriving DecidableEq, Repr

/-- Run the callback corresponding to one inbound message, keeping the
state. -/
def applyWindowEvent (buttonSessionID : String) (s : NS) (e : WindowEvent) : NS :=
  match e with
  | WindowEvent.approveEv he => (onApproveCallback buttonSessionID he s).1
  | WindowEvent.cancelEv => (onCancelCallback buttonSessionID s).1
  | WindowEvent.errorEv m => (onErrorCallback buttonSessionID m s).1
  | WindowEvent.fallbackEv u => (onFallbackCallback buttonSessionID u s).1

/-- `onCloseCallback`: waits the fixed 1000ms grace delay — during which the
messages `events` may arrive and run their callbacks — then performs the
close-without-resolution check on the resulting state. -/
def onCloseCallback (buttonSessionID : String) (androidChrome : Bool)
    (events : List WindowEvent) (s : NS) : NS :=
  onCloseAfterDelay androidChrome (events.foldl (applyWindowEvent buttonSessionID) s)

/-- The diagnostic log names `detectAppSwitch` / `detectWebSwitch` emit from
the prior switch timestamps (`lastAppSwitchTime > lastWebSwitchTime`, the
converse, or neither timestamp present), in source order. -/
def switchDiagnosticNames (tag : String) (lastApp lastWeb : Nat) : List String :=
  (if lastWeb < lastApp then [tag ++ "_detect_with_previous_app_switch"] else []) ++
  (if lastApp < lastWeb then [tag ++ "_detect_with_previous_web_switch"] else []) ++
  (if lastApp = 0 && lastWeb = 0 then [tag ++ "_detect_with_no_previous_switch"] else [])

/-- The `getStorageState` classification both detectors run: emit the
diagnostic logs for the prior switch timestamps. -/
def recordSwitchDiagnostics (tag : String) (lastApp lastWeb : Nat) (s : NS) : NS :=
  { s with trace := s.trace ++ (switchDiagnosticNames tag lastApp lastWeb).map Effect.info }

/-- `detectAppSwitch`: classifies and records the app-switch timestamp in
storage, emits detection telemetry, opens the native connection via
`connectNative`, registers `connection.cancel` into the registry, and
returns `connection.setProps()`. -/
def detectAppSwitch (connUID now lastApp lastWeb : Nat) (s : NS) : NS :=
  let s := recordSwitchDiagnostics "app_switch" lastApp lastWeb s
  let s := emit (Effect.storageWrite "lastAppSwitchTime" now) s
  let s := logTrack "native_detect_app_switch" s
  let s := emit (Effect.connectionOpened connUID) s
  register (Teardown.cancelConnection connUID) s

/-- `detectWebSwitch`: classifies and records the web-switch timestamp in
storage, emits detection telemetry, and falls back to web checkout passing
through the popup's window handle. -/
def detectWebSwitch (hasWin : Bool) (checkoutUID now lastApp lastWeb : Nat) (s : NS) : NS :=
  let s := recordSwitchDiagnostics "web_switch" lastApp lastWeb s
  let s := emit (Effect.storageWrite "lastWebSwitchTime" now) s
  let s := logTrack "native_detect_web_switch" s
  fallbackToWebCheckout hasWin checkoutUID s

/-- JavaScript member access on a plain function: `onApproveQR.then` is
`undefined`, and invoking `undefined` raises a TypeError. -/
def functionThen (name : String) : Except String Unit :=
  Except.error ("TypeError: " ++ name ++ ".then is not a function")

/-- `initQRCode`: emits the QR telemetry, builds and renders the QR code
component, then calls `connectNative` — whose `callbacks` object literal
evaluates `onApproveQR.then(...)` on the plain function `onApproveQR`, which
throws a TypeError before `connectNative` is invoked.  Had that evaluation
succeeded, the connection would be opened and its cancel registered. -/
def initQRCode (connUID : Nat) (s : NS) : NS × Except String Unit :=
  let s := logTrack "VenmoDesktopPay_qrcode" s
  let s := emit Effect.qrRendered s
  match functionThen "onApproveQR" with
  | Except.error e => (s, Except.error e)
  | Except.ok _ =>
      let s := emit (Effect.connectionOpened connUID) s
      (register (Teardown.cancelConnection connUID) s, Except.ok ())

/-- How the popup app-switch path behaves, as seen from `click()`'s promise
chain: `openNativePopup` throws synchronously; or the popup opens and a
detection branch later rejects; or the popup opens and the returned promise
stays pending. -/
inductive PopupOutcome where
  | syncThrow (err : String)
  | asyncReject (err : String)
  | pendingOk
deriving DecidableEq, Repr

/-- `initPopupAppSwitch`: calls `openNativePopup` and registers
`nativePopup.cancel` into the registry; the surrounding promise rejects when
`openNativePopup` throws or a detection branch rejects, and stays pending
(`Except.ok`) otherwise. -/
def initPopupAppSwitch (popupUID : Nat) (o : PopupOutcome) (s : NS) :
    NS × Except String Unit :=
  match o with
  | PopupOutcome.syncThrow e => (s, Except.error e)
  | PopupOutcome.asyncReject e =>
      let s := emit (Effect.popupOpened popupUID) s
      (register (Teardown.cancelPopup popupUID) s, Except.error e)
  | PopupOutcome.pendingOk =>
      let s := emit (Effect.popupOpened popupUID) s
      (register (Teardown.cancelPopup popupUID) s, Except.ok ())

/-- `click()`: generates a fresh `sessionUID` and dispatches to the QR path
or the popup app-switch path; any failure in the chain is caught, `destroy()`
runs, the error telemetry is emitted, and the error is re-thrown. -/
def click (isVenmoDesktopPay : Bool) (sessionUID : Nat) (o : PopupOutcome)
    (s : NS) : NS × Except String Unit :=
  match (if isVenmoDesktopPay then initQRCode sessionUID s
         else initPopupAppSwitch sessionUID o s) with
  | (s1, Except.ok v) => (s1, Except.ok v)
  | (s1, Except.error err) =>
      let s2 := destroy s1
      (logTrack "native_error" s2, Except.error err)

/-- `initNative`: throws when `config.firebase` is absent; otherwise runs
`clean.all()` of any prior live session and hands out a fresh session whose
trace continues the world trace. -/
def initNative (hasFirebaseConfig : Bool) (prior : Option NS) : Except String NS :=
  if hasFirebaseConfig = false then
    Except.error "Can not run native flow without firebase config"
  else
    Except.ok { freshNS with
      trace := match prior with
        | none => []
        | some p => (allTasks p).trace }

/-- The teardown actions a trace shows as executed, in order. -/
def teardownRuns (tr : List Effect) : List Teardown :=
  tr.filterMap fun e => match e with
    | Effect.teardownRun t => some t
    | _ => none

/-- Whether an effect is an invocation of the user `onCancel` handler. -/
def isCancelHandler : Effect → Bool
  | Effect.onCancelHandler => true
  | _ => false

/-- How often the user `onCancel` handler was invoked in a trace. -/
def countCancel (tr : List Effect) : Nat :=
  (tr.filter isCancelHandler).length

/-- Popups a trace shows as opened. -/
def openedPopups (tr : List Effect) : List Nat :=
  tr.filterMap fun e => match e with
    | Effect.popupOpened u => some u
    | _ => none

/-- Popups a trace shows as cancelled (their cancel teardown ran). -/
def cancelledPopups (tr : List Effect) : List Nat :=
  tr.filterMap fun e => match e with
    | Effect.teardownRun (Teardown.cancelPopup u) => some u
    | _ => none

/-- Popups opened and not yet cancelled. -/
def livePopups (tr : List Effect) : List Nat :=
  (openedPopups tr).filter fun u => decide (u ∉ cancelledPopups tr)

/-- Native connections a trace shows as opened. -/
def openedConnections (tr : List Effect) : List Nat :=
  tr.filterMap fun e => match e with
    | Effect.connectionOpened u => some u
    | _ => none

/-- Native connections a trace shows as cancelled. -/
def cancelledConnections (tr : List Effect) : List Nat :=
  tr.filterMap fun e => match e with
    | Effect.teardownRun (Teardown.cancelConnection u) => some u
    | _ => none

/-- Native connections opened and not yet cancelled. -/
def liveConnections (tr : List Effect) : List Nat :=
  (openedConnections tr).filter fun u => decide (u ∉ cancelledConnections tr)

/-- A concrete session with one registered teardown and one opened popup,
used to exercise general statements. -/
def demoSession : NS :=
  { freshNS with tasks := [Teardown.cancelPopup 9],
                 trace := [Effect.popupOpened 9] }

/-- A concrete session with one registered teardown and no popup or
connection opened yet. -/
def demoQuiet : NS :=
  { freshNS with tasks := [Teardown.closeCheckout 8],
                 trace := [Effect.telemetry "t0"] }

/-- The popup callbacks that can race to tear the session down: approve,
cancel and error invoke `destroy()` unconditionally; the close callback
invokes it after its grace delay when no terminal flag is set. -/
inductive DCallback where
  | approveC (handlerErr : Option String)
  | cancelC
  | errorC (msg : String)
  | closeC (androidChrome : Bool)
deriving DecidableEq, Repr

/-- Whether the callback invokes `destroy()` unconditionally. -/
def forcesDestroy : DCallback → Bool
  | DCallback.closeC _ => false
  | _ => true

/-- Run one of the racing callbacks, keeping the state. -/
def runDCallback (buttonSessionID : String) (s : NS) (c : DCallback) : NS :=
  match c with
  | DCallback.approveC he => (onApproveCallback buttonSessionID he s).1
  | DCallback.cancelC => (onCancelCallback buttonSessionID s).1
  | DCallback.errorC m => (onErrorCallback buttonSessionID m s).1
  | DCallback.closeC a => onCloseAfterDelay a s

/-- The session's teardown already ran: the memoized `destroy` caches the
task list the session held at state `s0`, and exactly that list was executed
(once) on top of `s0`'s teardown trace. -/
def RegDone (s0 s : NS) : Prop :=
  s.destroyMemo = some s0.tasks ∧
  teardownRuns s.trace = teardownRuns s0.trace ++ s0.tasks

/-- Registry invariant relative to the state `s0` at which the callback race
began: either `destroy()` has not yet run (registry and teardown trace
unchanged) or it ran exactly once. -/
def RegInv (s0 s : NS) : Prop :=
  (s.destroyMemo = none ∧ s.tasks = s0.tasks ∧
    teardownRuns s.trace = teardownRuns s0.trace) ∨ RegDone s0 s

end Native

namespace ButtonLogs

/-- Observable actions of `triggerButtonLogs`. -/
inductive LogEffect where
  | warn (name : String)
  | trackButtonLoad
deriving DecidableEq, Repr

/-- `triggerButtonLogs`: warns when the page runs in IE intranet mode, then
throws when `window.xprops` is absent; otherwise it tracks the button-load
telemetry record (after the asynchronous page-render-time read). -/
def triggerButtonLogs (ieIntranet hasXprops : Bool) :
    List LogEffect × Except String Unit :=
  let effs := if ieIntranet then [LogEffect.warn "button_child_intranet_mode"] else []
  if hasXprops = false then (effs, Except.error "No xprops found")
  else (effs ++ [LogEffect.trackButtonLoad], Except.ok ())

end ButtonLogs

instance {ε α : Type} [DecidableEq ε] [DecidableEq α] : DecidableEq (Except ε α)
  | Except.error a, Except.error b =>
      if h : a = b then Decidable.isTrue (h ▸ rfl)
      else Decidable.isFalse fun hc => h (Except.error.inj hc)
  | Except.error _, Except.ok _ => Decidable.isFalse fun hc => Except.noConfusion hc
  | Except.ok _, Except.error _ => Decidable.isFalse fun hc => Except.noConfusion hc
  | Except.ok a, Except.ok b =>
      if h : a = b then Decidable.isTrue (h ▸ rfl)
      else Decidable.isFalse fun hc => h (Except.ok.inj hc)

namespace Native

/-! ### Lemmas about the trace observers -/

theorem teardownRuns_append (a b : List Effect) :
    teardownRuns (a ++ b) = teardownRuns a ++ teardownRuns b := by
  simp [teardownRuns, List.filterMap_append]

theorem teardownRuns_map_teardownRun (ts : List Teardown) :
    teardownRuns (ts.map Effect.teardownRun) = ts := by
  induction ts with
  | nil => rfl
  | cons t ts ih =>
    simp only [teardownRuns, List.map_cons, List.filterMap_cons] at ih ⊢
    exact congrArg (List.cons t) ih

/-- The shipping-change `resolved` flag after the handler ran is decided by
the last action the handler invoked, defaulting to the initial value. -/
theorem shipping_foldl_last (acts : List ShippingAction) (b : Bool) :
    acts.foldl (fun _r a => match a with
      | ShippingAction.resolveA => true
      | ShippingAction.rejectA => false) b =
      (match acts.getLast? with
       | some ShippingAction.rejectA => false
       | some ShippingAction.resolveA => true
       | none => b) := by
  induction acts using List.reverseRecOn with
  | nil => rfl
  | append_singleton l a _ih =>
    rw [List.foldl_append, List.getLast?_concat]
    cases a <;> rfl

theorem openedConnections_append (a b : List Effect) :
    openedConnections (a ++ b) = openedConnections a ++ openedConnections b := by
  simp [openedConnections, List.filterMap_append]

theorem openedConnections_map_info (l : List String) :
    openedConnections (l.map Effect.info) = [] := by
  induction l with
  | nil => rfl
  | cons n l ih => simpa [openedConnections, List.filterMap_cons] using ih

/-! ### Claim theorems -/

/-- Claim C3: a rejection of the user `onApprove` handler inside the approve
callback is caught: error telemetry is emitted, the `onError` handler is
invoked with the rejection reason, cleanup runs the registered teardown set,
and the callback's future still resolves with the button session id instead
of propagating the rejection. -/
theorem onApprove_rejection_contained (bsid err : String) (s : NS)
    (h : s.destroyMemo = none) :
    (onApproveCallback bsid (some err) s).2 = Except.ok bsid ∧
    Effect.telemetry "native_message_onapprove_error" ∈
      (onApproveCallback bsid (some err) s).1.trace ∧
    Effect.onErrorHandler err ∈ (onApproveCallback bsid (some err) s).1.trace ∧
    (onApproveCallback bsid (some err) s).1.destroyMemo = some s.tasks ∧
    teardownRuns (onApproveCallback bsid (some err) s).1.trace =
      teardownRuns s.trace ++ s.tasks := by
  refine ⟨rfl, ?_, ?_, ?_, ?_⟩ <;>
    simp [onApproveCallback, logTrack, emit, destroy, destroyCall, allTasks, h,
      teardownRuns_append, teardownRuns_map_teardownRun, teardownRuns,
      List.filterMap_cons, List.filterMap_append, List.filterMap_map,
      Function.comp_def, List.filterMap_some]

/-- Claim C3 instantiated: the approve callback over a session holding one
registered teardown, with the user handler rejecting. -/
theorem onApprove_rejection_contained_witness :
    (onApproveCallback "b1" (some "boom") demoSession).2 = Except.ok "b1" ∧
    Effect.telemetry "native_message_onapprove_error" ∈
      (onApproveCallback "b1" (some "boom") demoSession).1.trace ∧
    Effect.onErrorHandler "boom" ∈
      (onApproveCallback "b1" (some "boom") demoSession).1.trace ∧
    (onApproveCallback "b1" (some "boom") demoSession).1.destroyMemo =
      some demoSession.tasks ∧
    teardownRuns (onApproveCallback "b1" (some "boom") demoSession).1.trace =
      teardownRuns demoSession.trace ++ demoSession.tasks :=
  onApprove_rejection_contained "b1" "boom" demoSession rfl

/-- Claim C7: when the popup's `onDetectWebSwitch` callback fires (and the
app-switch branch has not), `detectWebSwitch` records the web-switch
timestamp in storage, creates and starts a web checkout flow over the same
payment context with `isNativeFallback: true` and the passed-through window
handle, and no app-switch native connection is opened on that path. -/
theorem webswitch_fallback_no_connection (s : NS)
    (popupUID checkoutUID now lastApp lastWeb : Nat)
    (h : openedConnections s.trace = []) :
    Effect.storageWrite "lastWebSwitchTime" now ∈
      (detectWebSwitch true checkoutUID now lastApp lastWeb
        ((initPopupAppSwitch popupUID PopupOutcome.pendingOk s).1)).trace ∧
    Effect.checkoutInit true true ∈
      (detectWebSwitch true checkoutUID now lastApp lastWeb
        ((initPopupAppSwitch popupUID PopupOutcome.pendingOk s).1)).trace ∧
    Effect.checkoutStarted ∈
      (detectWebSwitch true checkoutUID now lastApp lastWeb
        ((initPopupAppSwitch popupUID PopupOutcome.pendingOk s).1)).trace ∧
    (detectWebSwitch true checkoutUID now lastApp lastWeb
        ((initPopupAppSwitch popupUID PopupOutcome.pendingOk s).1)).didFallback = true ∧
    openedConnections (detectWebSwitch true checkoutUID now lastApp lastWeb
        ((initPopupAppSwitch popupUID PopupOutcome.pendingOk s).1)).trace = [] := by
  have hsimp : ∀ a ∈ s.trace,
      (match a with
        | Effect.connectionOpened u => some u
        | _ => none) = (none : Option Nat) := by
    simpa [openedConnections, List.filterMap_eq_nil_iff] using h
  refine ⟨?_, ?_, ?_, ?_, ?_⟩ <;>
    simp [detectWebSwitch, recordSwitchDiagnostics, fallbackToWebCheckout,
      initPopupAppSwitch, register, emit, logTrack,
      openedConnections, List.filterMap_cons, List.filterMap_append,
      List.filterMap_map, Function.comp_def] <;>
    exact hsimp

/-- Claim C7 instantiated: a fresh session, popup 5, checkout 6, current
time 100, no prior switch timestamps. -/
theorem webswitch_fallback_no_connection_witness :
    Effect.storageWrite "lastWebSwitchTime" 100 ∈
      (detectWebSwitch true 6 100 0 0
        ((initPopupAppSwitch 5 PopupOutcome.pendingOk freshNS).1)).trace ∧
    Effect.checkoutInit true true ∈
      (detectWebSwitch true 6 100 0 0
        ((initPopupAppSwitch 5 PopupOutcome.pendingOk freshNS).1)).trace ∧
    Effect.checkoutStarted ∈
      (detectWebSwitch true 6 100 0 0
        ((initPopupAppSwitch 5 PopupOutcome.pendingOk freshNS).1)).trace ∧
    (detectWebSwitch true 6 100 0 0
        ((initPopupAppSwitch 5 PopupOutcome.pendingOk freshNS).1)).didFallback = true ∧
    openedConnections (detectWebSwitch true 6 100 0 0
        ((initPopupAppSwitch 5 PopupOutcome.pendingOk freshNS).1)).trace = [] :=
  webswitch_fallback_no_connection freshNS 5 6 100 0 0 rfl

/-! ### Lemmas about `destroy` and the grace-delay race -/

theorem destroy_approved (s : NS) : (destroy s).approved = s.approved := by
  cases h : s.destroyMemo <;> simp [destroy, destroyCall, h, allTasks]

theorem destroy_cancelled (s : NS) : (destroy s).cancelled = s.cancelled := by
  cases h : s.destroyMemo <;> simp [destroy, destroyCall, h, allTasks]

theorem destroy_didFallback (s : NS) : (destroy s).didFallback = s.didFallback := by
  cases h : s.destroyMemo <;> simp [destroy, destroyCall, h, allTasks]

theorem destroy_memo_isSome (s : NS) : (destroy s).destroyMemo.isSome = true := by
  cases h : s.destroyMemo <;> simp [destroy, destroyCall, h, allTasks]

theorem countCancel_nil : countCancel [] = 0 := rfl

theorem countCancel_append (a b : List Effect) :
    countCancel (a ++ b) = countCancel a + countCancel b := by
  simp [countCancel, List.filter_append]

theorem countCancel_cons (e : Effect) (tr : List Effect) :
    countCancel (e :: tr) =
      (if isCancelHandler e then 1 else 0) + countCancel tr := by
  cases he : isCancelHandler e <;>
    simp [countCancel, List.filter_cons, he, Nat.add_comm]

theorem countCancel_map_teardownRun (ts : List Teardown) :
    countCancel (ts.map Effect.teardownRun) = 0 := by
  induction ts with
  | nil => rfl
  | cons t ts ih =>
    simp [List.map_cons, countCancel_cons, isCancelHandler, ih]

theorem countCancel_destroy (s : NS) :
    countCancel (destroy s).trace = countCancel s.trace := by
  cases h : s.destroyMemo <;>
    simp [destroy, destroyCall, h, allTasks, countCancel_append,
      countCancel_map_teardownRun]

theorem applyWindowEvent_cancelled_mono (bsid : String) (s : NS) (e : WindowEvent)
    (h : s.cancelled = true) : (applyWindowEvent bsid s e).cancelled = true := by
  cases e with
  | approveEv he =>
    cases he <;>
      simp [applyWindowEvent, onApproveCallback, logTrack, emit, destroy_cancelled, h]
  | cancelEv =>
    simp [applyWindowEvent, onCancelCallback, logTrack, emit, destroy_cancelled]
  | errorEv m =>
    simp [applyWindowEvent, onErrorCallback, logTrack, emit, destroy_cancelled, h]
  | fallbackEv u =>
    simp [applyWindowEvent, onFallbackCallback, fallbackToWebCheckout, logTrack,
      emit, register, h]

theorem foldl_cancelled_mono (bsid : String) :
    ∀ (events : List WindowEvent) (s : NS), s.cancelled = true →
      (events.foldl (applyWindowEvent bsid) s).cancelled = true := by
  intro events
  induction events with
  | nil => intro s h; exact h
  | cons e rest ih =>
    intro s h
    exact ih _ (applyWindowEvent_cancelled_mono bsid s e h)

theorem cancelEv_sets_cancelled (bsid : String) (s : NS) :
    (applyWindowEvent bsid s WindowEvent.cancelEv).cancelled = true := by
  simp [applyWindowEvent, onCancelCallback, logTrack, emit, destroy_cancelled]

theorem applyWindowEvent_countCancel (bsid : String) (s : NS) (e : WindowEvent)
    (h : e ≠ WindowEvent.cancelEv) :
    countCancel (applyWindowEvent bsid s e).trace = countCancel s.trace := by
  cases e with
  | approveEv he =>
    cases he <;>
      simp [applyWindowEvent, onApproveCallback, logTrack, emit, countCancel_destroy,
        countCancel_append, countCancel_cons, countCancel_nil, isCancelHandler]
  | cancelEv => exact absurd rfl h
  | errorEv m =>
    simp [applyWindowEvent, onErrorCallback, logTrack, emit, countCancel_destroy,
      countCancel_append, countCancel_cons, countCancel_nil, isCancelHandler]
  | fallbackEv u =>
    simp [applyWindowEvent, onFallbackCallback, fallbackToWebCheckout, logTrack,
      emit, register, countCancel_append, countCancel_cons, countCancel_nil,
      isCancelHandler]

theorem foldl_countCancel_of_not_cancelled (bsid : String) :
    ∀ (events : List WindowEvent) (s : NS),
      (events.foldl (applyWindowEvent bsid) s).cancelled = false →
      countCancel (events.foldl (applyWindowEvent bsid) s).trace = countCancel s.trace := by
  intro events
  induction events with
  | nil => intro s _; rfl
  | cons e rest ih =>
    intro s h
    have hne : e ≠ WindowEvent.cancelEv := by
      intro hcan
      subst hcan
      have := foldl_cancelled_mono bsid rest _ (cancelEv_sets_cancelled bsid s)
      simp only [List.foldl_cons] at h
      rw [h] at this
      exact Bool.false_ne_true this
    simp only [List.foldl_cons] at h ⊢
    rw [ih _ h, applyWindowEvent_countCancel bsid s e hne]

theorem onCloseAfterDelay_fires (a : Bool) (s : NS)
    (h1 : s.approved = false) (h2 : s.cancelled = false)
    (h3 : s.didFallback = false) (h4 : a = false) :
    onCloseAfterDelay a s = destroy (emit Effect.onCancelHandler s) := by
  simp [onCloseAfterDelay, h1, h2, h3, h4]

theorem onCloseAfterDelay_skips_approved (a : Bool) (s : NS)
    (h : s.approved = true) : onCloseAfterDelay a s = s := by
  simp [onCloseAfterDelay, h]

/-- Claim C2: when the close callback's fixed 1000ms grace delay elapses —
with an arbitrary message sequence `ev1` having run during the delay — and
at that point none of `approved` / `cancelled` / `didFallback` is set and
the platform is not Android Chrome, the user `onCancel` handler is invoked
exactly once and cleanup runs; and under a message sequence `ev2` that set
`approved` before the delay elapsed, the close check does nothing at all —
in particular the cancel handler is not invoked. -/
theorem onClose_grace_delay_cancel (bsid : String) (s : NS)
    (ev1 ev2 : List WindowEvent) (android android2 : Bool)
    (h1 : (ev1.foldl (applyWindowEvent bsid) s).approved = false)
    (h2 : (ev1.foldl (applyWindowEvent bsid) s).cancelled = false)
    (h3 : (ev1.foldl (applyWindowEvent bsid) s).didFallback = false)
    (h4 : android = false)
    (h5 : (ev2.foldl (applyWindowEvent bsid) s).approved = true) :
    countCancel (onCloseCallback bsid android ev1 s).trace = countCancel s.trace + 1 ∧
    (onCloseCallback bsid android ev1 s).destroyMemo.isSome = true ∧
    onCloseCallback bsid android2 ev2 s = ev2.foldl (applyWindowEvent bsid) s := by
  have hw := foldl_countCancel_of_not_cancelled bsid ev1 s h2
  refine ⟨?_, ?_, ?_⟩
  · unfold onCloseCallback
    rw [onCloseAfterDelay_fires android _ h1 h2 h3 h4, countCancel_destroy]
    simp [emit, countCancel_append, countCancel_cons, countCancel_nil,
      isCancelHandler, hw]
  · unfold onCloseCallback
    rw [onCloseAfterDelay_fires android _ h1 h2 h3 h4]
    exact destroy_memo_isSome _
  · unfold onCloseCallback
    exact onCloseAfterDelay_skips_approved android2 _ h5

/-- Claim C2 instantiated: during the delay either an error message ran
(leaving all terminal flags unset: the cancel handler then fires once and
cleanup runs) or an approve message ran (the cancel handler then does not
fire). -/
theorem onClose_grace_delay_cancel_witness :
    countCancel (onCloseCallback "b2" false [WindowEvent.errorEv "oops"] freshNS).trace =
      countCancel freshNS.trace + 1 ∧
    (onCloseCallback "b2" false [WindowEvent.errorEv "oops"] freshNS).destroyMemo.isSome = true ∧
    onCloseCallback "b2" true [WindowEvent.approveEv none] freshNS =
      [WindowEvent.approveEv none].foldl (applyWindowEvent "b2") freshNS :=
  onClose_grace_delay_cancel "b2" freshNS [WindowEvent.errorEv "oops"]
    [WindowEvent.approveEv none] false true
    (by decide) (by decide) (by decide) rfl (by decide)

/-- Claim C8: for every shipping-change event, the callback resolves with
`resolved = true` when no user `onShippingChange` handler is supplied;
with a handler, it resolves with the value set by whichever of the handler's
`resolve` / `reject` actions was last invoked, and with `true` when the
handler invoked neither. -/
theorem onShippingChange_resolved_default (s : NS) (acts : List ShippingAction) :
    (onShippingChangeCallback none s).2 = true ∧
    (onShippingChangeCallback (some acts) s).2 =
      (match acts.getLast? with
       | some ShippingAction.rejectA => false
       | _ => true) := by
  refine ⟨rfl, ?_⟩
  show acts.foldl _ true = _
  rw [shipping_foldl_last]
  cases h : acts.getLast? with
  | none => rfl
  | some a => cases a <;> rfl

/-- Claim C9: `initNative` with a config that lacks the firebase
configuration throws synchronously — it returns the fatal error before
tearing down or constructing anything, whatever prior session exists, so no
connection is opened and no FlowInstance is produced. -/
theorem initNative_missing_firebase_throws (prior : Option NS) :
    initNative false prior =
      Except.error "Can not run native flow without firebase config" := rfl

/-- Claim C5 counterexample: two successive `click()` calls on the same
FlowInstance (popup path, neither call failing) leave both popup connections
live and run no teardown action at all — the first session's connection is
not torn down before the second begins. -/
theorem click_twice_two_live_popups_cex :
    livePopups ((click false 1 PopupOutcome.pendingOk
        ((click false 0 PopupOutcome.pendingOk freshNS).1)).1.trace) = [0, 1] ∧
    teardownRuns ((click false 1 PopupOutcome.pendingOk
        ((click false 0 PopupOutcome.pendingOk freshNS).1)).1.trace) = [] := by
  decide

/-- Claim C5, amended: `click()` twice on the same FlowInstance tears nothing
down — after the second click both popup connections are live and no
teardown has run; it is a new `initNative` call that first runs every
teardown action registered by the prior session (the global `clean` handle
is replaced) before the fresh session begins. -/
theorem click_no_teardown_initNative_tears_down (s p : NS) (u1 u2 : Nat)
    (h1 : s.trace = []) (h2 : s.tasks = []) :
    (livePopups ((click false u2 PopupOutcome.pendingOk
        ((click false u1 PopupOutcome.pendingOk s).1)).1.trace) = [u1, u2] ∧
     teardownRuns ((click false u2 PopupOutcome.pendingOk
        ((click false u1 PopupOutcome.pendingOk s).1)).1.trace) = []) ∧
    (initNative true (some p) =
        Except.ok { freshNS with trace := (allTasks p).trace } ∧
     teardownRuns (allTasks p).trace = teardownRuns p.trace ++ p.tasks) := by
  refine ⟨?_, ?_, ?_⟩
  · simp [click, initPopupAppSwitch, register, emit, h1, h2, livePopups,
      openedPopups, cancelledPopups, teardownRuns, List.filterMap_cons]
  · simp [initNative]
  · simp [allTasks, teardownRuns_append, teardownRuns_map_teardownRun]

/-- Claim C5 amended, instantiated: a fresh session clicked twice with popup
ids 3 and 4, and a prior session holding one registered teardown. -/
theorem click_no_teardown_initNative_tears_down_witness :
    (livePopups ((click false 4 PopupOutcome.pendingOk
        ((click false 3 PopupOutcome.pendingOk freshNS).1)).1.trace) = [3, 4] ∧
     teardownRuns ((click false 4 PopupOutcome.pendingOk
        ((click false 3 PopupOutcome.pendingOk freshNS).1)).1.trace) = []) ∧
    (initNative true (some demoSession) =
        Except.ok { freshNS with trace := (allTasks demoSession).trace } ∧
     teardownRuns (allTasks demoSession).trace =
        teardownRuns demoSession.trace ++ demoSession.tasks) :=
  click_no_teardown_initNative_tears_down freshNS demoSession 3 4 rfl rfl

/-- Claim C6 (code bug): on the QR desktop-pay path, `click()` renders the
QR component, but evaluating the `connectNative` callbacks object invokes
`onApproveQR.then` on a plain function and throws a TypeError, so no native
connection is ever opened and no connection cancel is registered; `click`'s
catch then runs cleanup, leaves the registry empty, emits the error
telemetry and re-throws the TypeError. -/
theorem qr_path_typeerror_no_connection :
    (click true 7 PopupOutcome.pendingOk freshNS).2 =
      Except.error "TypeError: onApproveQR.then is not a function" ∧
    Effect.qrRendered ∈ (click true 7 PopupOutcome.pendingOk freshNS).1.trace ∧
    openedConnections (click true 7 PopupOutcome.pendingOk freshNS).1.trace = [] ∧
    (click true 7 PopupOutcome.pendingOk freshNS).1.tasks = [] ∧
    Effect.telemetry "native_error" ∈
      (click true 7 PopupOutcome.pendingOk freshNS).1.trace := by
  decide

/-! ### The destroy race: the registered teardown set runs exactly once -/

theorem destroy_of_memo_some (s : NS) (v : List Teardown)
    (h : s.destroyMemo = some v) : destroy s = s := by
  simp [destroy, destroyCall, h]

theorem RegDone_run (bsid : String) (s0 s : NS) (c : DCallback)
    (h : RegDone s0 s) : RegDone s0 (runDCallback bsid s c) := by
  obtain ⟨hm, htr⟩ := h
  simp only [teardownRuns] at htr
  cases c with
  | approveC he =>
    cases he <;>
      refine ⟨?_, ?_⟩ <;>
        simp [runDCallback, onApproveCallback, logTrack, emit, destroy, destroyCall,
          hm, htr, teardownRuns_append, teardownRuns, List.filterMap_cons,
          List.filterMap_append]
  | cancelC =>
    refine ⟨?_, ?_⟩ <;>
      simp [runDCallback, onCancelCallback, logTrack, emit, destroy, destroyCall,
        hm, htr, teardownRuns_append, teardownRuns, List.filterMap_cons,
        List.filterMap_append]
  | errorC m =>
    refine ⟨?_, ?_⟩ <;>
      simp [runDCallback, onErrorCallback, logTrack, emit, destroy, destroyCall,
        hm, htr, teardownRuns_append, teardownRuns, List.filterMap_cons,
        List.filterMap_append]
  | closeC a =>
    by_cases hc : (!s.approved && !s.cancelled && !s.didFallback && !a) = true
    · refine ⟨?_, ?_⟩ <;>
        simp [runDCallback, onCloseAfterDelay, hc, emit, destroy, destroyCall,
          hm, htr, teardownRuns_append, teardownRuns, List.filterMap_cons,
          List.filterMap_append]
    · simp only [runDCallback, onCloseAfterDelay, if_neg hc]
      exact ⟨hm, htr⟩

theorem run_forces_RegDone (bsid : String) (s0 s : NS) (c : DCallback)
    (hm : s.destroyMemo = none) (ht : s.tasks = s0.tasks)
    (htr : teardownRuns s.trace = teardownRuns s0.trace)
    (hf : forcesDestroy c = true) : RegDone s0 (runDCallback bsid s c) := by
  simp only [teardownRuns] at htr
  cases c with
  | approveC he =>
    cases he <;>
      refine ⟨?_, ?_⟩ <;>
        simp [runDCallback, onApproveCallback, logTrack, emit, destroy, destroyCall,
          allTasks, hm, ht, htr, teardownRuns_append, teardownRuns_map_teardownRun,
          teardownRuns, List.filterMap_cons, List.filterMap_append,
          List.filterMap_map, Function.comp_def, List.filterMap_some]
  | cancelC =>
    refine ⟨?_, ?_⟩ <;>
      simp [runDCallback, onCancelCallback, logTrack, emit, destroy, destroyCall,
        allTasks, hm, ht, htr, teardownRuns_append, teardownRuns_map_teardownRun,
        teardownRuns, List.filterMap_cons, List.filterMap_append,
        List.filterMap_map, Function.comp_def, List.filterMap_some]
  | errorC m =>
    refine ⟨?_, ?_⟩ <;>
      simp [runDCallback, onErrorCallback, logTrack, emit, destroy, destroyCall,
        allTasks, hm, ht, htr, teardownRuns_append, teardownRuns_map_teardownRun,
        teardownRuns, List.filterMap_cons, List.filterMap_append,
        List.filterMap_map, Function.comp_def, List.filterMap_some]
  | closeC a => exact absurd hf (by simp [forcesDestroy])

theorem RegInv_run (bsid : String) (s0 s : NS) (c : DCallback)
    (h : RegInv s0 s) : RegInv s0 (runDCallback bsid s c) := by
  rcases h with ⟨hm, ht, htr⟩ | hD
  · cases c with
    | approveC he =>
      exact Or.inr (run_forces_RegDone bsid s0 s _ hm ht htr rfl)
    | cancelC =>
      exact Or.inr (run_forces_RegDone bsid s0 s _ hm ht htr rfl)
    | errorC m =>
      exact Or.inr (run_forces_RegDone bsid s0 s _ hm ht htr rfl)
    | closeC a =>
      by_cases hc : (!s.approved && !s.cancelled && !s.didFallback && !a) = true
      · simp only [teardownRuns] at htr
        refine Or.inr ⟨?_, ?_⟩ <;>
          simp [runDCallback, onCloseAfterDelay, hc, emit, destroy, destroyCall,
            allTasks, hm, ht, htr, teardownRuns_append, teardownRuns_map_teardownRun,
            teardownRuns, List.filterMap_cons, List.filterMap_append,
            List.filterMap_map, Function.comp_def, List.filterMap_some]
      · simp only [runDCallback, onCloseAfterDelay, if_neg hc]
        exact Or.inl ⟨hm, ht, htr⟩
  · exact Or.inr (RegDone_run bsid s0 s c hD)

theorem foldl_RegDone (bsid : String) (s0 : NS) :
    ∀ (seq : List DCallback) (s : NS), RegDone s0 s →
      RegDone s0 (seq.foldl (runDCallback bsid) s) := by
  intro seq
  induction seq with
  | nil => intro s h; exact h
  | cons c rest ih =>
    intro s h
    exact ih _ (RegDone_run bsid s0 s c h)

theorem foldl_RegInv_forces (bsid : String) (s0 : NS) :
    ∀ (seq : List DCallback) (s : NS), RegInv s0 s →
      (∃ c ∈ seq, forcesDestroy c = true) →
      RegDone s0 (seq.foldl (runDCallback bsid) s) := by
  intro seq
  induction seq with
  | nil =>
    intro s _ hex
    simp at hex
  | cons c rest ih =>
    intro s hinv hex
    simp only [List.foldl_cons]
    by_cases hf : forcesDestroy c = true
    · have hd : RegDone s0 (runDCallback bsid s c) := by
        rcases hinv with ⟨hm, ht, htr⟩ | hD
        · exact run_forces_RegDone bsid s0 s c hm ht htr hf
        · exact RegDone_run bsid s0 s c hD
      exact foldl_RegDone bsid s0 rest _ hd
    · rcases hex with ⟨d, hd, hfd⟩
      rcases List.mem_cons.mp hd with rfl | hdrest
      · exact absurd hfd hf
      · exact ih _ (RegInv_run bsid s0 s c hinv) ⟨d, hdrest, hfd⟩

/-- Claim C1: over any sequence of popup callbacks of which at least one
invokes `destroy()` unconditionally (approve, cancel or error — the close
callback only invokes it conditionally), the full teardown set registered
in the session runs exactly once in total, the memoized `destroy` caches the
first call's outcome, and a further `destroy()` — also exposed as
`FlowInstance.close()` — returns that same outcome without re-running any
action or changing the state. -/
theorem destroy_teardowns_run_once (bsid : String) (s : NS) (seq : List DCallback)
    (h0 : s.destroyMemo = none)
    (h1 : ∃ c ∈ seq, forcesDestroy c = true) :
    teardownRuns (seq.foldl (runDCallback bsid) s).trace =
      teardownRuns s.trace ++ s.tasks ∧
    (seq.foldl (runDCallback bsid) s).destroyMemo = some s.tasks ∧
    destroyCall (seq.foldl (runDCallback bsid) s) =
      (seq.foldl (runDCallback bsid) s, s.tasks) ∧
    destroy (seq.foldl (runDCallback bsid) s) = seq.foldl (runDCallback bsid) s := by
  have hd : RegDone s (seq.foldl (runDCallback bsid) s) :=
    foldl_RegInv_forces bsid s seq s (Or.inl ⟨h0, rfl, rfl⟩) h1
  obtain ⟨hm, htr⟩ := hd
  refine ⟨htr, hm, ?_, ?_⟩
  · simp [destroyCall, hm]
  · simp [destroy, destroyCall, hm]

/-- Claim C1 instantiated: the error callback and then the close callback
race to destroy a session holding one registered teardown — the teardown
runs once, and a further destroy returns the cached outcome unchanged. -/
theorem destroy_teardowns_run_once_witness :
    teardownRuns ([DCallback.errorC "e1", DCallback.closeC false].foldl
        (runDCallback "b3") demoSession).trace =
      teardownRuns demoSession.trace ++ demoSession.tasks ∧
    ([DCallback.errorC "e1", DCallback.closeC false].foldl
        (runDCallback "b3") demoSession).destroyMemo = some demoSession.tasks ∧
    destroyCall ([DCallback.errorC "e1", DCallback.closeC false].foldl
        (runDCallback "b3") demoSession) =
      ([DCallback.errorC "e1", DCallback.closeC false].foldl
        (runDCallback "b3") demoSession, demoSession.tasks) ∧
    destroy ([DCallback.errorC "e1", DCallback.closeC false].foldl
        (runDCallback "b3") demoSession) =
      [DCallback.errorC "e1", DCallback.closeC false].foldl
        (runDCallback "b3") demoSession :=
  destroy_teardowns_run_once "b3" demoSession
    [DCallback.errorC "e1", DCallback.closeC false] rfl (by decide)

/-! ### Click-path failures -/

theorem livePopups_nil (tr : List Effect)
    (h : ∀ u ∈ openedPopups tr, u ∈ cancelledPopups tr) :
    livePopups tr = [] := by
  unfold livePopups
  rw [List.filter_eq_nil_iff]
  intro u hu
  simp [h u hu]

/-- Claim C4: a synchronous failure (`openNativePopup` throws) or an
asynchronous failure (a detection branch rejects after the popup opened)
during `click()` is caught; every registered teardown action runs via
`destroy` — including the just-registered popup cancel in the asynchronous
case — then the error telemetry is emitted, and only then is the error
re-thrown to the caller; the registry is left empty, and no popup connection
stays live. -/
theorem click_failure_cleans_up (s : NS) (uid : Nat) (e : String)
    (h0 : s.destroyMemo = none)
    (hp : openedPopups s.trace = []) :
    ((click false uid (PopupOutcome.syncThrow e) s).2 = Except.error e ∧
     (click false uid (PopupOutcome.syncThrow e) s).1.trace =
       s.trace ++ s.tasks.map Effect.teardownRun ++
         [Effect.telemetry "native_error"] ∧
     (click false uid (PopupOutcome.syncThrow e) s).1.tasks = []) ∧
    ((click false uid (PopupOutcome.asyncReject e) s).2 = Except.error e ∧
     (click false uid (PopupOutcome.asyncReject e) s).1.trace =
       s.trace ++ [Effect.popupOpened uid] ++
         (s.tasks ++ [Teardown.cancelPopup uid]).map Effect.teardownRun ++
         [Effect.telemetry "native_error"] ∧
     (click false uid (PopupOutcome.asyncReject e) s).1.tasks = [] ∧
     livePopups (click false uid (PopupOutcome.asyncReject e) s).1.trace = []) := by
  have htrace : (click false uid (PopupOutcome.asyncReject e) s).1.trace =
      s.trace ++ [Effect.popupOpened uid] ++
        (s.tasks ++ [Teardown.cancelPopup uid]).map Effect.teardownRun ++
        [Effect.telemetry "native_error"] := by
    simp [click, initPopupAppSwitch, destroy, destroyCall, h0, register, emit,
      logTrack, allTasks]
  refine ⟨⟨rfl, ?_, ?_⟩, rfl, htrace, ?_, ?_⟩
  · simp [click, initPopupAppSwitch, destroy, destroyCall, h0, register, emit,
      logTrack, allTasks]
  · simp [click, initPopupAppSwitch, destroy, destroyCall, h0, register, emit,
      logTrack, allTasks]
  · simp [click, initPopupAppSwitch, destroy, destroyCall, h0, register, emit,
      logTrack, allTasks]
  · rw [htrace]
    refine livePopups_nil _ ?_
    intro a ha
    simp only [openedPopups] at hp
    simp [openedPopups, List.filterMap_append, List.filterMap_cons,
      List.filterMap_map, Function.comp_def, hp] at ha
    subst ha
    simp [cancelledPopups, List.filterMap_append, List.filterMap_cons,
      List.filterMap_map, Function.comp_def]

/-- Claim C4 instantiated: a session with one prior registered teardown and
no popup yet, failing synchronously and asynchronously with error `bad`. -/
theorem click_failure_cleans_up_witness :
    ((click false 2 (PopupOutcome.syncThrow "bad") demoQuiet).2 = Except.error "bad" ∧
     (click false 2 (PopupOutcome.syncThrow "bad") demoQuiet).1.trace =
       demoQuiet.trace ++ demoQuiet.tasks.map Effect.teardownRun ++
         [Effect.telemetry "native_error"] ∧
     (click false 2 (PopupOutcome.syncThrow "bad") demoQuiet).1.tasks = []) ∧
    ((click false 2 (PopupOutcome.asyncReject "bad") demoQuiet).2 = Except.error "bad" ∧
     (click false 2 (PopupOutcome.asyncReject "bad") demoQuiet).1.trace =
       demoQuiet.trace ++ [Effect.popupOpened 2] ++
         (demoQuiet.tasks ++ [Teardown.cancelPopup 2]).map Effect.teardownRun ++
         [Effect.telemetry "native_error"] ∧
     (click false 2 (PopupOutcome.asyncReject "bad") demoQuiet).1.tasks = [] ∧
     livePopups (click false 2 (PopupOutcome.asyncReject "bad") demoQuiet).1.trace = []) :=
  click_failure_cleans_up demoQuiet 2 "bad" rfl rfl

end Native

namespace ButtonLogs

/-- Claim C10: whenever `window.xprops` is absent, `triggerButtonLogs` throws
synchronously with the message `No xprops found`, after the IE-intranet
warning check (the warning is still emitted in intranet mode) and before any
button-load telemetry record is tracked; when xprops is present it does not
throw. -/
theorem triggerButtonLogs_no_xprops_throws :
    ∀ ie : Bool,
      (triggerButtonLogs ie false).2 = Except.error "No xprops found" ∧
      LogEffect.trackButtonLoad ∉ (triggerButtonLogs ie false).1 ∧
      (triggerButtonLogs true false).1 = [LogEffect.warn "button_child_intranet_mode"] ∧
      (triggerButtonLogs ie true).2 = Except.ok () := by
  decide

end ButtonLogs
